import Mathlib

/-!
Shallow embedding of the core of the Nyaa formula compiler
(lexer, typed AST, type-directed code generator), translated from
src/lib/include/NyaaToken.h, NyaaInstructions.h, NyaaFunction.h,
NyaaNodes.h, src/lib/src/NyaaNodes.cc and src/lib/src/NyaaTokenizer.cc.

Conventions of the embedding:
* C++ exceptions (`throw std::invalid_argument` etc.) become `Except String`;
  the string is the thrown message.
* The instruction sink `std::stack<CodeAndSourceLocation>` is modelled as the
  list of entries in push order (head = first pushed).
* `size_t` source locations are modelled as `Int`, since the source passes
  the literal `-1` for compiler-synthesized nodes and
  `CodeAndSourceLocation::getSourceLocation` returns `int`.
* `FuncCallNode` holds its arguments in a `std::vector<TreeNode *>`; here the
  argument vector is the isomorphic inductive `ArgList` (kept mutual with
  `TreeNode` so that all recursions are structural and computable).
* `double` constant payloads are carried as `Rat`; no arithmetic is ever
  performed on them by the compiler, they are only moved into push entries.
-/

namespace Nyaa

/-- NodeType from NyaaFunction.h. -/
inductive NodeType where
  | BOOLEAN_NODE
  | INT_NODE
  | FLOAT_NODE
  | STRING_NODE
  | NULL_NODE
deriving DecidableEq, Repr

/-- Instruction from NyaaInstructions.h: the closed opcode set. -/
inductive Instruction where
  | FADD | FSUB | FMUL | FDIV | FPOW
  | SCONCAT
  | BEQLF | BNEQLF | BGTF | BLTF | BGTEF | BLTEF
  | BEQLS | BNEQLS | BGTS | BLTS | BGTES | BLTES
  | BGTB | BLTB | BGTEB | BLTEB | BEQLB | BNEQLB
  | BEQLI | BNEQLI | BGTI | BLTI | BGTEI | BLTEI
  | CALL
  | FUMINUS | FUPLUS
  | AREF | AREF2
  | FCONVI | FCONVB | FCONVS
  | SCONVF | SCONVI | SCONVB
deriving DecidableEq, Repr

/-- TokenType from NyaaToken.h. -/
inductive TokenType where
  | STRING_CONSTANT | FLOAT_CONSTANT | BOOLEAN_CONSTANT | IDENTIFIER
  | OPEN_BRACE | CLOSE_BRACE | OPEN_PAREN | CLOSE_PAREN
  | COLON | CARET | PLUS | MINUS | DIV | MUL
  | EQUAL | NOT_EQUAL | GREATER_THAN | LESS_THAN
  | GREATER_OR_EQUAL | LESS_OR_EQUAL
  | DOLLAR | COMMA | AMPERSAND | EOS | ERROR
deriving DecidableEq, Repr

/-- OpType from NyaaToken.h: the operator class of a token. -/
inductive OpType where
  | NONE | COMP_OP | ARITH_OP | STRING_OP
deriving DecidableEq, Repr

/-- Token from NyaaToken.h: token kind, string representation, operator class. -/
structure Token where
  token_type : TokenType
  string_rep : String
  op_type : OpType
deriving DecidableEq, Repr

/-- Token::NO_STRING_REP from NyaaToken.cc. -/
def Token.NO_STRING_REP : String := "?"

def Token.getType (t : Token) : TokenType := t.token_type

def Token.getStringRep (t : Token) : String := t.string_rep

/-- Token::IsCompOp (NyaaToken.h; BinOpNode calls it as isCompOp). -/
def Token.isCompOp (t : Token) : Bool := t.op_type = OpType.COMP_OP

def Token.isArithOp (t : Token) : Bool := t.op_type = OpType.ARITH_OP

def Token.isStringOp (t : Token) : Bool := t.op_type = OpType.STRING_OP

/-! The singleton token constants declared at namespace scope in NyaaToken.h. -/

def STRING_CONSTANT : Token := ⟨TokenType.STRING_CONSTANT, Token.NO_STRING_REP, OpType.NONE⟩
def FLOAT_CONSTANT : Token := ⟨TokenType.FLOAT_CONSTANT, Token.NO_STRING_REP, OpType.NONE⟩
def BOOLEAN_CONSTANT : Token := ⟨TokenType.BOOLEAN_CONSTANT, Token.NO_STRING_REP, OpType.NONE⟩
def IDENTIFIER : Token := ⟨TokenType.IDENTIFIER, Token.NO_STRING_REP, OpType.NONE⟩
def OPEN_BRACE : Token := ⟨TokenType.OPEN_BRACE, "\x7b", OpType.NONE⟩
def CLOSE_BRACE : Token := ⟨TokenType.CLOSE_BRACE, "\x7d", OpType.NONE⟩
def OPEN_PAREN : Token := ⟨TokenType.OPEN_PAREN, "(", OpType.NONE⟩
def CLOSE_PAREN : Token := ⟨TokenType.CLOSE_PAREN, ")", OpType.NONE⟩
def COLON : Token := ⟨TokenType.COLON, ":", OpType.NONE⟩
def CARET : Token := ⟨TokenType.CARET, "^", OpType.ARITH_OP⟩
def PLUS : Token := ⟨TokenType.PLUS, "+", OpType.ARITH_OP⟩
def MINUS : Token := ⟨TokenType.MINUS, "-", OpType.ARITH_OP⟩
def DIV : Token := ⟨TokenType.DIV, "/", OpType.ARITH_OP⟩
def MUL : Token := ⟨TokenType.MUL, "*", OpType.ARITH_OP⟩
def EQUAL : Token := ⟨TokenType.EQUAL, "=", OpType.COMP_OP⟩
def NOT_EQUAL : Token := ⟨TokenType.NOT_EQUAL, "<>", OpType.COMP_OP⟩
def GREATER_THAN : Token := ⟨TokenType.GREATER_THAN, ">", OpType.COMP_OP⟩
def LESS_THAN : Token := ⟨TokenType.LESS_THAN, "<", OpType.COMP_OP⟩
def GREATER_OR_EQUAL : Token := ⟨TokenType.GREATER_OR_EQUAL, ">=", OpType.COMP_OP⟩
def LESS_OR_EQUAL : Token := ⟨TokenType.LESS_OR_EQUAL, "<=", OpType.COMP_OP⟩
def DOLLAR : Token := ⟨TokenType.DOLLAR, "$", OpType.NONE⟩
def COMMA : Token := ⟨TokenType.COMMA, ",", OpType.NONE⟩
def AMPERSAND : Token := ⟨TokenType.AMPERSAND, "&", OpType.NONE⟩
def EOS : Token := ⟨TokenType.EOS, Token.NO_STRING_REP, OpType.NONE⟩
def ERROR : Token := ⟨TokenType.ERROR, Token.NO_STRING_REP, OpType.NONE⟩

/-- The Function interface of NyaaFunction.h reduced to what the code
generator consumes: a stable opaque reference, identified by its name. -/
structure Function where
  name : String
deriving DecidableEq, Repr

mutual

/-- The AST of NyaaNodes.h, as a closed sum over the concrete node classes:
BinOpNode, BooleanConstantNode, FloatConstantNode, FuncCallNode, IdentNode,
SConvNode, UnaryOpNode, FConvNode, StringConstantNode.  Each node carries the
fields its class stores; SConvNode and FConvNode store no location because
their AbstractNode part is constructed with the fixed location -1. -/
inductive TreeNode where
  | binOp (source_location : Int) (op : Token) (lhs rhs : TreeNode)
  | booleanConstant (source_location : Int) (value : Bool)
  | floatConstant (source_location : Int) (value : Rat)
  | stringConstant (source_location : Int) (value : String)
  | funcCall (source_location : Int) (func : Function) (return_type : NodeType) (args : ArgList)
  | ident (source_location : Int) (attrib_name : String) (default_value : Option TreeNode)
      (type : NodeType)
  | sConv (convertee : TreeNode)
  | unaryOp (source_location : Int) (op : Token) (operand : TreeNode)
  | fConv (convertee : TreeNode)

/-- The argument vector of FuncCallNode (std::vector<TreeNode *>). -/
inductive ArgList where
  | nil
  | cons (head : TreeNode) (tail : ArgList)

end

/-- Number of arguments: args_.size(). -/
def ArgList.length : ArgList → Nat
  | .nil => 0
  | .cons _ tl => 1 + tl.length

/-- The argument vector as a plain list, in argument order. -/
def ArgList.toList : ArgList → List TreeNode
  | .nil => []
  | .cons hd tl => hd :: tl.toList

/-- AbstractNode::getSourceLocation (SConvNode and FConvNode pass -1). -/
def TreeNode.getSourceLocation : TreeNode → Int
  | .binOp loc _ _ _ => loc
  | .booleanConstant loc _ => loc
  | .floatConstant loc _ => loc
  | .stringConstant loc _ => loc
  | .funcCall loc _ _ _ => loc
  | .ident loc _ _ _ => loc
  | .sConv _ => -1
  | .unaryOp loc _ _ => loc
  | .fConv _ => -1

/-- The per-class getType overrides of NyaaNodes.h.
BinOpNode: operator_.isCompOp() ? BOOLEAN_NODE : lhs_->getType();
UnaryOpNode: operand's type; SConvNode: STRING_NODE; FConvNode: FLOAT_NODE
(the source writes Double.class in its Java-flavoured fragment);
FuncCallNode: the stored return_type_; IdentNode: the stored type_. -/
def TreeNode.getType : TreeNode → NodeType
  | .binOp _ op lhs _ => if op.isCompOp then NodeType.BOOLEAN_NODE else lhs.getType
  | .booleanConstant _ _ => NodeType.BOOLEAN_NODE
  | .floatConstant _ _ => NodeType.FLOAT_NODE
  | .stringConstant _ _ => NodeType.STRING_NODE
  | .funcCall _ _ return_type _ => return_type
  | .ident _ _ _ type => type
  | .sConv _ => NodeType.STRING_NODE
  | .unaryOp _ _ operand => operand.getType
  | .fConv _ => NodeType.FLOAT_NODE

/-- The per-class getLeftChild overrides of NyaaNodes.h.  Constants, function
calls and attribute references never expose children; SConvNode, FConvNode and
UnaryOpNode expose their single child on the left. -/
def TreeNode.getLeftChild : TreeNode → Option TreeNode
  | .binOp _ _ lhs _ => some lhs
  | .booleanConstant _ _ => none
  | .floatConstant _ _ => none
  | .stringConstant _ _ => none
  | .funcCall _ _ _ _ => none
  | .ident _ _ _ _ => none
  | .sConv convertee => some convertee
  | .unaryOp _ _ operand => some operand
  | .fConv convertee => some convertee

/-- The per-class getRightChild overrides of NyaaNodes.h. -/
def TreeNode.getRightChild : TreeNode → Option TreeNode
  | .binOp _ _ _ rhs => some rhs
  | .booleanConstant _ _ => none
  | .floatConstant _ _ => none
  | .stringConstant _ _ => none
  | .funcCall _ _ _ _ => none
  | .ident _ _ _ _ => none
  | .sConv _ => none
  | .unaryOp _ _ _ => none
  | .fConv _ => none

/-- BinOpNode::BinOpNode (NyaaNodes.cc lines 30-39): null checks on both
operands, then the operand-type equality check; each failure throws
std::invalid_argument.  The nullable C++ pointers are Option arguments. -/
def mkBinOpNode (source_location : Int) (operator_type : Token)
    (lhs rhs : Option TreeNode) : Except String TreeNode :=
  match lhs with
  | none => .error "in BinOpNode::BinOpNode: operand must not be NULL!"
  | some l =>
    match rhs with
    | none => .error "in BinOpNode::BinOpNode: right operand must not be NULL!"
    | some r =>
      if l.getType ≠ r.getType then
        .error "in BinOpNode::BinOpNode:  left and right operands must be of the same type!"
      else
        .ok (.binOp source_location operator_type l r)

/-- IdentNode::IdentNode (NyaaNodes.h lines 225-233): the declared type must
not be NULL_NODE, and a supplied default value must have exactly that type. -/
def mkIdentNode (source_location : Int) (attrib_name : String)
    (default_value : Option TreeNode) (type : NodeType) : Except String TreeNode :=
  if type = NodeType.NULL_NODE then
    .error "in IdentNode::IdentNode: type must not be NULL_NODE."
  else
    match default_value with
    | some d =>
      if d.getType ≠ type then
        .error "in IdentNode::IdentNode: default value must match type."
      else
        .ok (.ident source_location attrib_name default_value type)
    | none => .ok (.ident source_location attrib_name default_value type)

/-- CodeAndSourceLocation: one entry of the instruction sink.  The source
constructs entries from an Instruction, a floating-point / string / boolean
constant value, an argument count, a Function reference, or (in
IdentNode::genCode) a default-value node, each paired with a source
location. -/
inductive CodeAndSourceLocation where
  | instr (i : Instruction) (source_location : Int)
  | pushFloat (value : Rat) (source_location : Int)
  | pushString (value : String) (source_location : Int)
  | pushBool (value : Bool) (source_location : Int)
  | pushCount (value : Nat) (source_location : Int)
  | pushFunc (func : Function) (source_location : Int)
  | pushNode (node : TreeNode) (source_location : Int)

/-- BinOpNode::determineOpCode (NyaaNodes.cc lines 115-130): picks one of the
four opcodes from the LHS operand type.  Note that the if/else chain returns
on every path (the final branch returns int_op_code for every type that is
not FLOAT_NODE, STRING_NODE or BOOLEAN_NODE), so the trailing
`throw std::runtime_error(... "invalid LHS operand type for comparison" ...)`
in the source is unreachable; the Except result is therefore never .error. -/
def determineOpCode (lhs_type : NodeType) (float_op_code string_op_code
    boolean_op_code int_op_code : Instruction) : Except String Instruction :=
  if lhs_type = NodeType.FLOAT_NODE then .ok float_op_code
  else if lhs_type = NodeType.STRING_NODE then .ok string_op_code
  else if lhs_type = NodeType.BOOLEAN_NODE then .ok boolean_op_code
  else .ok int_op_code

/-- The operator switch of BinOpNode::genCode (NyaaNodes.cc lines 46-97),
factored out of the traversal: each case of the C++ switch selects the
instruction that the case then pushes; the default case throws
std::runtime_error with the node location and the operator's string
representation.  Comparisons delegate to determineOpCode on the LHS type. -/
def binOpInstruction (source_location : Int) (op : Token) (lhs_type : NodeType) :
    Except String Instruction :=
  match op.getType with
  | TokenType.CARET => .ok Instruction.FPOW
  | TokenType.PLUS => .ok Instruction.FADD
  | TokenType.MINUS => .ok Instruction.FSUB
  | TokenType.DIV => .ok Instruction.FDIV
  | TokenType.MUL => .ok Instruction.FMUL
  | TokenType.EQUAL =>
    determineOpCode lhs_type Instruction.BEQLF Instruction.BEQLS
      Instruction.BEQLB Instruction.BEQLI
  | TokenType.NOT_EQUAL =>
    determineOpCode lhs_type Instruction.BNEQLF Instruction.BNEQLS
      Instruction.BNEQLB Instruction.BNEQLI
  | TokenType.GREATER_THAN =>
    determineOpCode lhs_type Instruction.BGTF Instruction.BGTS
      Instruction.BGTB Instruction.BGTI
  | TokenType.LESS_THAN =>
    determineOpCode lhs_type Instruction.BLTF Instruction.BLTS
      Instruction.BLTB Instruction.BLTI
  | TokenType.GREATER_OR_EQUAL =>
    determineOpCode lhs_type Instruction.BGTEF Instruction.BGTES
      Instruction.BGTEB Instruction.BGTEI
  | TokenType.LESS_OR_EQUAL =>
    determineOpCode lhs_type Instruction.BLTEF Instruction.BLTES
      Instruction.BLTEB Instruction.BLTEI
  | TokenType.AMPERSAND => .ok Instruction.SCONCAT
  | _ => .error (toString source_location ++ ": unknown operator: "
      ++ op.getStringRep ++ ".")

mutual

/-- The genCode overrides of NyaaNodes.h / NyaaNodes.cc, producing the sink
contents in push order.
* binOp (NyaaNodes.cc 42-98): rhs_->genCode, lhs_->genCode, then one
  instruction switched on the operator token type (comparisons delegate to
  determineOpCode); an unknown operator throws std::runtime_error.
* stringConstant (NyaaNodes.h 439-441): a single push of the value.
* booleanConstant / floatConstant: declared in NyaaNodes.h but their bodies
  are not in the repository sources.  Modelled from the spec: "For literals,
  emit a single push-constant instruction carrying the literal's decoded
  value" paired with the node's source offset.
* funcCall (NyaaNodes.h 207-213): arguments in reverse index order, then the
  argument count and the Function reference (both at location -1), then CALL.
* ident (NyaaNodes.h 254-259): when a default exists, a single entry
  constructed from the default-value node at location -1; then the attribute
  name at location -1; then AREF (no default) or AREF2 (default).
* sConv (NyaaNodes.h 297-309) and fConv (NyaaNodes.h 398-410): convertee
  code, then the conversion opcode from the convertee type, else a throw.
* unaryOp (NyaaNodes.h 346-359): operand code, then FUPLUS/FUMINUS, else an
  IllegalStateException. -/
def TreeNode.genCode : TreeNode → Except String (List CodeAndSourceLocation)
  | .binOp source_location op lhs rhs => do
    let rhs_code ← rhs.genCode
    let lhs_code ← lhs.genCode
    let i ← binOpInstruction source_location op lhs.getType
    .ok (rhs_code ++ lhs_code ++ [.instr i source_location])
  | .booleanConstant source_location value => .ok [.pushBool value source_location]
  | .floatConstant source_location value => .ok [.pushFloat value source_location]
  | .stringConstant source_location value => .ok [.pushString value source_location]
  | .funcCall source_location func _ args => do
    let args_code ← genCodeArgsRev args
    .ok (args_code ++ [.pushCount args.length (-1), .pushFunc func (-1),
      .instr Instruction.CALL source_location])
  | .ident source_location attrib_name default_value _ =>
    .ok ((match default_value with
          | some d => [CodeAndSourceLocation.pushNode d (-1)]
          | none => [])
      ++ [.pushString attrib_name (-1),
          .instr (match default_value with
                  | none => Instruction.AREF
                  | some _ => Instruction.AREF2) source_location])
  | .sConv convertee => do
    let convertee_code ← convertee.genCode
    match convertee.getType with
    | NodeType.FLOAT_NODE => .ok (convertee_code ++ [.instr Instruction.SCONVF (-1)])
    | NodeType.INT_NODE => .ok (convertee_code ++ [.instr Instruction.SCONVI (-1)])
    | NodeType.BOOLEAN_NODE => .ok (convertee_code ++ [.instr Instruction.SCONVB (-1)])
    | _ => .error "unknown node type."
  | .unaryOp source_location op operand => do
    let operand_code ← operand.genCode
    match op.getType with
    | TokenType.PLUS => .ok (operand_code ++ [.instr Instruction.FUPLUS source_location])
    | TokenType.MINUS => .ok (operand_code ++ [.instr Instruction.FUMINUS source_location])
    | _ => .error ("invalid unary operation: " ++ op.getStringRep ++ ".")
  | .fConv convertee => do
    let convertee_code ← convertee.genCode
    match convertee.getType with
    | NodeType.INT_NODE => .ok (convertee_code ++ [.instr Instruction.FCONVI (-1)])
    | NodeType.BOOLEAN_NODE => .ok (convertee_code ++ [.instr Instruction.FCONVB (-1)])
    | NodeType.STRING_NODE => .ok (convertee_code ++ [.instr Instruction.FCONVS (-1)])
    | _ => .error "unknown type."

/-- The argument loop of FuncCallNode::genCode:
`for (int i(args_.size() - 1); i >= 0; --i) args_[i]->genCode(code_stack);`
The last argument generates (and can fail) first. -/
def genCodeArgsRev : ArgList → Except String (List CodeAndSourceLocation)
  | .nil => .ok []
  | .cons hd tl => do
    let rest_code ← genCodeArgsRev tl
    let hd_code ← hd.genCode
    .ok (rest_code ++ hd_code)

end

/-!
Tokenizer (NyaaTokenizer.cc).  The C++ scanner walks a
std::string::const_iterator `ch_` that the parse helpers move forward with
`*ch_++` reads and backward with `--ch_`.  The cursor is modelled as a zipper
(before, after): `before` holds the already-passed characters in reverse and
`after` the characters from the cursor on; `--ch_` moves one character from
`before` back to `after`.  Each helper is entered with `after` starting at the
first character of the token's content, which is where getToken places the
iterator before delegating.
-/

/-- std::isdigit in the C locale: exactly the characters 0-9. -/
def isDigitChar (c : Char) : Bool := '0' ≤ c ∧ c ≤ '9'

/-- One `--ch_` step on the zipper cursor. -/
def stepBack : List Char × List Char → List Char × List Char
  | ([], after) => ([], after)
  | (b :: bs, after) => (bs, b :: after)

/-- The digit-gathering loops of Tokenizer::parseNumericConstant
(`while (ch_ != source_.cend() and std::isdigit(*ch_)) number += *ch_++;`),
also accumulating into `number`. -/
def digitsLoop : String → List Char → List Char → String × List Char × List Char
  | number, before, [] => (number, before, [])
  | number, before, c :: rest =>
    if isDigitChar c then digitsLoop (number.push c) (c :: before) rest
    else (number, before, c :: rest)

/-- Outcome of Tokenizer::parseNumericConstant: either one of its explicit
error returns (error_msg_ plus the ERROR token), or control reaching the
`convert:` label, recorded with the accumulated `number` string — the exact
text handed to `std::sscanf(number.c_str(), "%lf", &float_constant_)` — and
the final cursor zipper after the label's conditional `--ch_`. -/
inductive NumScanResult where
  | error (msg : String)
  | convert (number : String) (before after : List Char)

/-- The `convert:` label of Tokenizer::parseNumericConstant (lines 175-182):
sscanf on `number`, then `if (ch_ != source_.cend()) --ch_;`.  The sscanf
call itself is C library behaviour outside this repository; its input
`number` and the cursor are what the result records. -/
def convertStep (number : String) (before after : List Char) : NumScanResult :=
  match after with
  | [] => .convert number before []
  | _ =>
    match stepBack (before, after) with
    | (b, a) => .convert number b a

/-- Tokenizer::parseNumericConstant (NyaaTokenizer.cc lines 169-217),
translated clause by clause:
* integer-part digits loop (171-172);
* line 174: at end of input, or a next character that is none of e/E/.,
  jump to convert (where the cursor, when not at the end, is stepped back
  once);
* optional decimal point and fraction digits (186-190);
* line 193 reads `*ch_` with no end-of-input guard; past the end the
  std::string buffer holds the terminating NUL, which matches neither e nor
  E, so the exponent block is skipped;
* exponent (193-213): consume e/E, error "invalid numeric constant." at end
  of input, consume an optional sign, error "missing digits in exponent."
  when the next character is no digit (again an unguarded read, NUL at the
  end), then `--ch_` (line 209) followed by the digit loop (211-212) — the
  stepped-back cursor sits on the sign or exponent letter, never a digit, so
  this loop appends nothing;
* line 214: one more `--ch_`, then goto convert. -/
def parseNumericConstant (before after : List Char) : NumScanResult :=
  match digitsLoop "" before after with
  | (number, b1, a1) =>
    match a1 with
    | [] => convertStep number b1 []
    | c :: rest =>
      if c ≠ 'e' ∧ c ≠ 'E' ∧ c ≠ '.' then
        convertStep number b1 (c :: rest)
      else
        match (if c = '.' then digitsLoop (number.push '.') (c :: b1) rest
               else (number, b1, c :: rest)) with
        | (number2, b2, a2) =>
          match a2 with
          | [] =>
            match stepBack (b2, []) with
            | (b7, a7) => convertStep number2 b7 a7
          | c2 :: rest2 =>
            if c2 = 'e' ∨ c2 = 'E' then
              match rest2 with
              | [] => .error "invalid numeric constant."
              | c3 :: rest3 =>
                match (if c3 = '+' ∨ c3 = '-'
                       then ((number2.push c2).push c3, c3 :: c2 :: b2, rest3)
                       else (number2.push c2, c2 :: b2, c3 :: rest3)) with
                | (number4, b4, a4) =>
                  match a4 with
                  | [] => .error "missing digits in exponent."
                  | c4 :: rest4 =>
                    if ¬ isDigitChar c4 then .error "missing digits in exponent."
                    else
                      match stepBack (b4, c4 :: rest4) with
                      | (b5, a5) =>
                        match digitsLoop number4 b5 a5 with
                        | (number5, b6, a6) =>
                          match stepBack (b6, a6) with
                          | (b7, a7) => convertStep number5 b7 a7
            else
              match stepBack (b2, c2 :: rest2) with
              | (b7, a7) => convertStep number2 b7 a7

/-- The delimiters that end an unescaped brace-mode identifier
(Tokenizer::parseIdentifier, loop condition at lines 223-225). -/
def isBraceDelim (c : Char) : Bool :=
  c = '}' ∨ c = ':' ∨ c = ',' ∨ c = '(' ∨ c = ')'

/-- The scanning loop of Tokenizer::parseIdentifier (NyaaTokenizer.cc lines
221-239): consume while not at an unescaped delimiter; an escaped character
is taken literally, a backslash arms the escape, everything else is taken
literally; a still-armed escape at end of input is the error "invalid column
name at end of formula."  Returns the accumulated identifier and the
unconsumed suffix (which is empty or starts with the delimiter that stopped
the scan; the subsequent `--ch_` of the source merely re-aligns the shared
iterator and consumes nothing). -/
def parseIdentifierLoop (after : List Char) (escaped : Bool) (identifier : String) :
    Except String (String × List Char) :=
  match after with
  | [] =>
    if escaped then .error "invalid column name at end of formula."
    else .ok (identifier, [])
  | c :: rest =>
    if ¬ isBraceDelim c ∨ escaped then
      if escaped then parseIdentifierLoop rest false (identifier.push c)
      else if c = '\\' then parseIdentifierLoop rest true identifier
      else parseIdentifierLoop rest false (identifier.push c)
    else .ok (identifier, c :: rest)

/-- Case-insensitive equality as computed by ::strcasecmp(x, y) == 0 on
ASCII identifiers, via tolower on each character. -/
def strcasecmpEq (x y : String) : Bool :=
  x.data.map Char.toLower = y.data.map Char.toLower

/-- The token classification of a scanned brace-mode identifier
(Tokenizer::parseIdentifier lines 242-252): TRUE/FALSE compared
case-insensitively yield a boolean-constant token, anything else an
identifier token carrying the text. -/
inductive IdentTokenResult where
  | errorToken (msg : String)
  | booleanConstant (value : Bool) (rest : List Char)
  | identifier (text : String) (rest : List Char)

/-- Tokenizer::parseIdentifier as a whole: the scan loop followed by the
TRUE/FALSE classification. -/
def parseIdentifier (after : List Char) : IdentTokenResult :=
  match parseIdentifierLoop after false "" with
  | .error msg => .errorToken msg
  | .ok (identifier, rest) =>
    if strcasecmpEq identifier "TRUE" then .booleanConstant true rest
    else if strcasecmpEq identifier "FALSE" then .booleanConstant false rest
    else .identifier identifier rest

/-!
Specification-side definitions: measures and tables stated in the words of
the specification, against which the embedded source functions are compared.
-/

mutual

/-- Number of AST nodes in a tree (a node with a default subtree or argument
subtrees counts them as well). -/
def nodeCount : TreeNode → Nat
  | .binOp _ _ lhs rhs => 1 + nodeCount lhs + nodeCount rhs
  | .booleanConstant _ _ => 1
  | .floatConstant _ _ => 1
  | .stringConstant _ _ => 1
  | .funcCall _ _ _ args => 1 + argsNodeCount args
  | .ident _ _ (some d) _ => 1 + nodeCount d
  | .ident _ _ none _ => 1
  | .sConv convertee => 1 + nodeCount convertee
  | .unaryOp _ _ operand => 1 + nodeCount operand
  | .fConv convertee => 1 + nodeCount convertee

/-- Total node count of an argument vector. -/
def argsNodeCount : ArgList → Nat
  | .nil => 0
  | .cons hd tl => nodeCount hd + argsNodeCount tl

end

mutual

/-- No implicit-conversion node (SConvNode / FConvNode) anywhere in the tree
— the restriction stated by the claim. -/
def convFree : TreeNode → Bool
  | .binOp _ _ lhs rhs => convFree lhs && convFree rhs
  | .booleanConstant _ _ => true
  | .floatConstant _ _ => true
  | .stringConstant _ _ => true
  | .funcCall _ _ _ args => argsConvFree args
  | .ident _ _ (some d) _ => convFree d
  | .ident _ _ none _ => true
  | .sConv _ => false
  | .unaryOp _ _ operand => convFree operand
  | .fConv _ => false

/-- convFree over an argument vector. -/
def argsConvFree : ArgList → Bool
  | .nil => true
  | .cons hd tl => convFree hd && argsConvFree tl

end

/-- A tree built solely from binary operators, unary operators and literal
constants (no conversions, attribute references or calls) — the class of
trees for which one node emits one sink entry. -/
def simpleTree : TreeNode → Bool
  | .binOp _ _ lhs rhs => simpleTree lhs && simpleTree rhs
  | .booleanConstant _ _ => true
  | .floatConstant _ _ => true
  | .stringConstant _ _ => true
  | .unaryOp _ _ operand => simpleTree operand
  | .funcCall _ _ _ _ => false
  | .ident _ _ _ _ => false
  | .sConv _ => false
  | .fConv _ => false

/-- The generated code of each argument, in argument order (a1 first). -/
def argCodesOf : ArgList → Except String (List (List CodeAndSourceLocation))
  | .nil => .ok []
  | .cons hd tl => do
    let hd_code ← hd.genCode
    let rest ← argCodesOf tl
    .ok (hd_code :: rest)

/-- The 24-entry comparison table of spec section 4.3: for each comparison
token and each of the four operand types, the type-specialized opcode chosen
from the left operand's static type. -/
def compOpcodeTable : TokenType → NodeType → Option Instruction
  | TokenType.EQUAL, NodeType.FLOAT_NODE => some Instruction.BEQLF
  | TokenType.EQUAL, NodeType.STRING_NODE => some Instruction.BEQLS
  | TokenType.EQUAL, NodeType.BOOLEAN_NODE => some Instruction.BEQLB
  | TokenType.EQUAL, NodeType.INT_NODE => some Instruction.BEQLI
  | TokenType.NOT_EQUAL, NodeType.FLOAT_NODE => some Instruction.BNEQLF
  | TokenType.NOT_EQUAL, NodeType.STRING_NODE => some Instruction.BNEQLS
  | TokenType.NOT_EQUAL, NodeType.BOOLEAN_NODE => some Instruction.BNEQLB
  | TokenType.NOT_EQUAL, NodeType.INT_NODE => some Instruction.BNEQLI
  | TokenType.GREATER_THAN, NodeType.FLOAT_NODE => some Instruction.BGTF
  | TokenType.GREATER_THAN, NodeType.STRING_NODE => some Instruction.BGTS
  | TokenType.GREATER_THAN, NodeType.BOOLEAN_NODE => some Instruction.BGTB
  | TokenType.GREATER_THAN, NodeType.INT_NODE => some Instruction.BGTI
  | TokenType.LESS_THAN, NodeType.FLOAT_NODE => some Instruction.BLTF
  | TokenType.LESS_THAN, NodeType.STRING_NODE => some Instruction.BLTS
  | TokenType.LESS_THAN, NodeType.BOOLEAN_NODE => some Instruction.BLTB
  | TokenType.LESS_THAN, NodeType.INT_NODE => some Instruction.BLTI
  | TokenType.GREATER_OR_EQUAL, NodeType.FLOAT_NODE => some Instruction.BGTEF
  | TokenType.GREATER_OR_EQUAL, NodeType.STRING_NODE => some Instruction.BGTES
  | TokenType.GREATER_OR_EQUAL, NodeType.BOOLEAN_NODE => some Instruction.BGTEB
  | TokenType.GREATER_OR_EQUAL, NodeType.INT_NODE => some Instruction.BGTEI
  | TokenType.LESS_OR_EQUAL, NodeType.FLOAT_NODE => some Instruction.BLTEF
  | TokenType.LESS_OR_EQUAL, NodeType.STRING_NODE => some Instruction.BLTES
  | TokenType.LESS_OR_EQUAL, NodeType.BOOLEAN_NODE => some Instruction.BLTEB
  | TokenType.LESS_OR_EQUAL, NodeType.INT_NODE => some Instruction.BLTEI
  | _, _ => none

/-- Modelled from the spec (section 4.3): the claim's reading of
attribute-reference emission — "if a default subtree exists, emit the
default's code first, then push the attribute name, then the dereference
instruction"; AREF2 with a default, AREF without.  Compared against the
source's IdentNode::genCode. -/
def identClaimEmission (source_location : Int) (attrib_name : String)
    (default_value : Option TreeNode) : Except String (List CodeAndSourceLocation) :=
  match default_value with
  | some d => do
    let default_code ← d.genCode
    .ok (default_code ++ [.pushString attrib_name (-1),
      .instr Instruction.AREF2 source_location])
  | none =>
    .ok [.pushString attrib_name (-1), .instr Instruction.AREF source_location]

/-- Splits the longest digit prefix off a character list. -/
def splitDigits : List Char → List Char × List Char
  | [] => ([], [])
  | c :: rest =>
    if isDigitChar c then
      match splitDigits rest with
      | (ds, r) => (c :: ds, r)
    else ([], c :: rest)

/-- The optional-exponent tail of the numeric-literal grammar of spec
section 4.1: empty, or e/E followed by an optional sign and at least one
digit, with nothing after. -/
def matchesExponentTail : List Char → Bool
  | [] => true
  | c :: rest =>
    if c = 'e' ∨ c = 'E' then
      match rest with
      | [] => false
      | s :: r =>
        if s = '+' ∨ s = '-' then
          match splitDigits r with
          | (ds, rr) => !ds.isEmpty && rr.isEmpty
        else
          match splitDigits (s :: r) with
          | (ds, rr) => !ds.isEmpty && rr.isEmpty
    else false

/-- The numeric-literal grammar of spec section 4.1 as a whole-string match:
digits, an optional decimal point with at least one fraction digit, and an
optional exponent. -/
def matchesNumericGrammar (input : List Char) : Bool :=
  match splitDigits input with
  | (ds, r1) =>
    !ds.isEmpty &&
      (match r1 with
       | '.' :: r =>
         (match splitDigits r with
          | (ds2, r2) => !ds2.isEmpty && matchesExponentTail r2)
       | r => matchesExponentTail r)

/-- One component of a brace-mode identifier: a plain character or a
backslash-escaped character. -/
inductive BraceItem where
  | plain (c : Char)
  | esc (c : Char)

/-- The source text of one component. -/
def itemChars : BraceItem → List Char
  | .plain c => [c]
  | .esc c => ['\\', c]

/-- The source text of a component sequence. -/
def itemsChars (items : List BraceItem) : List Char :=
  (items.map itemChars).flatten

/-- The decoded character of one component: an escape contributes the escaped
character itself, with the backslash removed. -/
def decodeItem : BraceItem → Char
  | .plain c => c
  | .esc c => c

/-- A plain component must not be a delimiter (otherwise it would stop the
scan) nor a lone backslash (which would arm an escape). -/
def wfItem : BraceItem → Bool
  | .plain c => ¬ isBraceDelim c ∧ c ≠ '\\'
  | .esc _ => true

/-- Well-formedness of a component sequence. -/
def wfItems : List BraceItem → Bool
  | [] => true
  | it :: rest => wfItem it && wfItems rest

/-!
Helper lemmas shared by the claim theorems.
-/

/-- Inversion of BinOpNode::genCode on success: the produced code is the
right operand's code, then the left operand's code, then the single selected
operator instruction. -/
lemma binOp_genCode_ok {loc : Int} {op : Token} {lhs rhs : TreeNode}
    {code : List CodeAndSourceLocation}
    (h : TreeNode.genCode (.binOp loc op lhs rhs) = .ok code) :
    ∃ rc lc i, rhs.genCode = .ok rc ∧ lhs.genCode = .ok lc ∧
      binOpInstruction loc op lhs.getType = .ok i ∧
      code = rc ++ lc ++ [.instr i loc] := by
  cases hr : rhs.genCode with
  | error e => simp [TreeNode.genCode, hr, Except.bind, Bind.bind] at h
  | ok rc =>
    cases hl : lhs.genCode with
    | error e => simp [TreeNode.genCode, hr, hl, Except.bind, Bind.bind] at h
    | ok lc =>
      cases hi : binOpInstruction loc op lhs.getType with
      | error e => simp [TreeNode.genCode, hr, hl, hi, Except.bind, Bind.bind] at h
      | ok i =>
        simp [TreeNode.genCode, hr, hl, hi, Except.bind, Bind.bind] at h
        exact ⟨rc, lc, i, rfl, rfl, rfl, by simpa [List.append_assoc] using h.symm⟩

/-- Inversion of UnaryOpNode::genCode on success: operand code then a single
unary instruction. -/
lemma unaryOp_genCode_ok {loc : Int} {op : Token} {operand : TreeNode}
    {code : List CodeAndSourceLocation}
    (h : TreeNode.genCode (.unaryOp loc op operand) = .ok code) :
    ∃ oc i, operand.genCode = .ok oc ∧ code = oc ++ [.instr i loc] := by
  cases ho : operand.genCode with
  | error e => simp [TreeNode.genCode, ho, Except.bind, Bind.bind] at h
  | ok oc =>
    simp [TreeNode.genCode, ho, Except.bind, Bind.bind] at h
    cases htt : op.getType <;> simp [htt] at h <;>
      exact ⟨oc, _, rfl, h.symm⟩

/-- Every AST node counts itself, so a tree has at least one node. -/
lemma nodeCount_pos (t : TreeNode) : 1 ≤ nodeCount t := by
  cases t with
  | ident loc name dflt ty => cases dflt <;> simp [nodeCount]
  | _ => simp [nodeCount] <;> omega

/-- For trees of binary operators, unary operators and literal constants,
successful code generation emits exactly one sink entry per node (strong
induction on the node count). -/
lemma genCode_length_simple_aux : ∀ (n : Nat) (t : TreeNode), nodeCount t ≤ n →
    simpleTree t = true → ∀ code, t.genCode = .ok code →
    code.length = nodeCount t := by
  intro n
  induction n with
  | zero =>
    intro t hle
    exact absurd hle (by have := nodeCount_pos t; omega)
  | succ n ih =>
    intro t hle hs code hc
    cases t with
    | binOp loc op l r =>
      obtain ⟨rc, lc, i, hr, hl2, _, hcode⟩ := binOp_genCode_ok hc
      have hsl : simpleTree l = true ∧ simpleTree r = true := by
        simpa [simpleTree, Bool.and_eq_true] using hs
      have hcount : 1 + nodeCount l + nodeCount r ≤ n + 1 := by
        simpa [nodeCount] using hle
      have ihl := ih l (by omega) hsl.1 lc hl2
      have ihr := ih r (by omega) hsl.2 rc hr
      subst hcode
      simp [nodeCount, ihl, ihr]
      omega
    | booleanConstant loc v =>
      simp [TreeNode.genCode] at hc
      simp [← hc, nodeCount]
    | floatConstant loc v =>
      simp [TreeNode.genCode] at hc
      simp [← hc, nodeCount]
    | stringConstant loc v =>
      simp [TreeNode.genCode] at hc
      simp [← hc, nodeCount]
    | unaryOp loc op o =>
      obtain ⟨oc, i, ho, hcode⟩ := unaryOp_genCode_ok hc
      have hso : simpleTree o = true := by simpa [simpleTree] using hs
      have hcount : 1 + nodeCount o ≤ n + 1 := by simpa [nodeCount] using hle
      have iho := ih o (by omega) hso oc ho
      subst hcode
      simp [nodeCount, iho]
      omega
    | funcCall loc f rt args => simp [simpleTree] at hs
    | ident loc name dflt ty => simp [simpleTree] at hs
    | sConv c => simp [simpleTree] at hs
    | fConv c => simp [simpleTree] at hs

/-- C1.  For every binary-operator node, successful code generation emits
exactly the right subtree's code first, then the left subtree's code, then
exactly one operator instruction (first conjunct, as claimed).  The claimed
consequence "a conversion-free tree with N nodes emits N instructions" is
false for attribute-reference and call nodes (see the counterexample); it
holds for trees built from binary operators, unary operators and literal
constants (second conjunct, the amended count). -/
theorem binOp_emits_right_left_op_and_simple_count :
    (∀ (loc : Int) (op : Token) (lhs rhs : TreeNode)
       (code : List CodeAndSourceLocation),
       TreeNode.genCode (.binOp loc op lhs rhs) = .ok code →
       ∃ rc lc i, rhs.genCode = .ok rc ∧ lhs.genCode = .ok lc ∧
         code = rc ++ lc ++ [.instr i loc]) ∧
    (∀ t : TreeNode, simpleTree t = true →
       ∀ code, t.genCode = .ok code → code.length = nodeCount t) := by
  constructor
  · intro loc op lhs rhs code hc
    obtain ⟨rc, lc, i, hr, hl, _, hcode⟩ := binOp_genCode_ok hc
    exact ⟨rc, lc, i, hr, hl, hcode⟩
  · intro t hs code hc
    exact genCode_length_simple_aux (nodeCount t) t le_rfl hs code hc

/-- Witness for C1 at the tree for TRUE <> FALSE: the emission decomposes as
right code, left code, one instruction, and the three-node tree emits three
entries. -/
theorem binOp_emits_right_left_op_and_simple_count_witness :
    (∃ rc lc i,
       TreeNode.genCode (.booleanConstant 8 false) = .ok rc ∧
       TreeNode.genCode (.booleanConstant 0 true) = .ok lc ∧
       ([CodeAndSourceLocation.pushBool false 8, .pushBool true 0,
         .instr Instruction.BNEQLB 5] : List CodeAndSourceLocation)
         = rc ++ lc ++ [.instr i 5]) ∧
    ([CodeAndSourceLocation.pushBool false 8, .pushBool true 0,
      .instr Instruction.BNEQLB 5] : List CodeAndSourceLocation).length
      = nodeCount (.binOp 5 NOT_EQUAL (.booleanConstant 0 true)
          (.booleanConstant 8 false)) :=
  ⟨binOp_emits_right_left_op_and_simple_count.1 5 NOT_EQUAL
      (.booleanConstant 0 true) (.booleanConstant 8 false) _ (by rfl),
   binOp_emits_right_left_op_and_simple_count.2
      (.binOp 5 NOT_EQUAL (.booleanConstant 0 true) (.booleanConstant 8 false))
      (by rfl) _ (by rfl)⟩

/-- Counterexample to C1 as stated: a single attribute-reference node without
a default is a conversion-free one-node tree, yet its generated code has two
entries (the attribute-name push and AREF), not one. -/
theorem binOp_node_count_counterexample :
    convFree (.ident 0 "x" none NodeType.BOOLEAN_NODE) = true ∧
    nodeCount (.ident 0 "x" none NodeType.BOOLEAN_NODE) = 1 ∧
    TreeNode.genCode (.ident 0 "x" none NodeType.BOOLEAN_NODE)
      = .ok [.pushString "x" (-1), .instr Instruction.AREF 0] ∧
    ([CodeAndSourceLocation.pushString "x" (-1),
      .instr Instruction.AREF 0] : List CodeAndSourceLocation).length ≠ 1 := by
  exact ⟨rfl, rfl, rfl, by simp⟩

/-- C2 (amended).  A successfully constructed binary-operator node has result
type Boolean when the operator class is Comparison, and the shared operand
type otherwise; the claimed "Boolean iff Comparison" holds whenever the
operand type is not itself Boolean (for Boolean operands under a
non-comparison operator the result type is Boolean as well, refuting the
unrestricted iff — see the counterexample). -/
theorem binOp_resultType_amended :
    ∀ (loc : Int) (op : Token) (l r t : TreeNode),
      mkBinOpNode loc op (some l) (some r) = .ok t →
      (t.getType = if op.isCompOp then NodeType.BOOLEAN_NODE else l.getType) ∧
      (l.getType ≠ NodeType.BOOLEAN_NODE →
        (t.getType = NodeType.BOOLEAN_NODE ↔ op.isCompOp = true)) := by
  intro loc op l r t h
  by_cases he : l.getType = r.getType
  · simp [mkBinOpNode, he] at h
    subst h
    refine ⟨by simp [TreeNode.getType], ?_⟩
    intro hne
    cases hcomp : op.isCompOp <;> simp [TreeNode.getType, hcomp, hne]
  · simp [mkBinOpNode, he] at h

/-- Witness for C2 at a comparison of two float literals. -/
theorem binOp_resultType_witness :
    TreeNode.getType (.binOp 1 EQUAL (.floatConstant 0 1) (.floatConstant 2 2))
        = (if EQUAL.isCompOp then NodeType.BOOLEAN_NODE
           else TreeNode.getType (.floatConstant 0 1)) ∧
    (TreeNode.getType (.floatConstant 0 1) ≠ NodeType.BOOLEAN_NODE →
      (TreeNode.getType (.binOp 1 EQUAL (.floatConstant 0 1) (.floatConstant 2 2))
          = NodeType.BOOLEAN_NODE ↔ EQUAL.isCompOp = true)) :=
  binOp_resultType_amended 1 EQUAL (.floatConstant 0 1) (.floatConstant 2 2)
    (.binOp 1 EQUAL (.floatConstant 0 1) (.floatConstant 2 2)) (by rfl)

/-- Counterexample to C2 as stated: PLUS (operator class Arithmetic) over two
Boolean operands constructs successfully and its result type is Boolean,
although the operator is not a comparison — the iff direction fails. -/
theorem binOp_resultType_counterexample :
    mkBinOpNode 0 PLUS (some (.booleanConstant 1 true)) (some (.booleanConstant 2 false))
      = .ok (.binOp 0 PLUS (.booleanConstant 1 true) (.booleanConstant 2 false)) ∧
    TreeNode.getType (.binOp 0 PLUS (.booleanConstant 1 true) (.booleanConstant 2 false))
      = NodeType.BOOLEAN_NODE ∧
    PLUS.isCompOp = false :=
  ⟨rfl, rfl, rfl⟩

/-- C3 (amended).  With a default subtree, IdentNode::genCode pushes a single
operand entry constructed from the default-value node (at no source
location), then the attribute name, then AREF2; without a default it pushes
the name and AREF.  (The source never emits the default subtree's generated
code — see the counterexample.) -/
theorem identNode_emission_amended :
    ∀ (loc : Int) (name : String) (d : TreeNode) (ty : NodeType),
      TreeNode.genCode (.ident loc name (some d) ty)
        = .ok [.pushNode d (-1), .pushString name (-1), .instr Instruction.AREF2 loc] ∧
      TreeNode.genCode (.ident loc name none ty)
        = .ok [.pushString name (-1), .instr Instruction.AREF loc] :=
  fun _ _ _ _ => ⟨rfl, rfl⟩

/-- Counterexample to C3 as stated: for a constructible attribute reference
with a string-literal default, the emitted first entry is the entry holding
the default node (at location -1), not the default subtree's generated code
(which would be a push of the string value at the default's location 5). -/
theorem identNode_emission_counterexample :
    mkIdentNode 7 "name" (some (.stringConstant 5 "unknown")) NodeType.STRING_NODE
      = .ok (.ident 7 "name" (some (.stringConstant 5 "unknown")) NodeType.STRING_NODE) ∧
    TreeNode.genCode (.ident 7 "name" (some (.stringConstant 5 "unknown")) NodeType.STRING_NODE)
      = .ok [.pushNode (.stringConstant 5 "unknown") (-1), .pushString "name" (-1),
          .instr Instruction.AREF2 7] ∧
    identClaimEmission 7 "name" (some (.stringConstant 5 "unknown"))
      = .ok [.pushString "unknown" 5, .pushString "name" (-1),
          .instr Instruction.AREF2 7] ∧
    ([CodeAndSourceLocation.pushNode (.stringConstant 5 "unknown") (-1),
      .pushString "name" (-1), .instr Instruction.AREF2 7] : List CodeAndSourceLocation)
      ≠ [.pushString "unknown" 5, .pushString "name" (-1), .instr Instruction.AREF2 7] := by
  refine ⟨rfl, rfl, rfl, by simp⟩

/-- C4.  BinOpNode::determineOpCode never raises the internal-invariant error:
its if/else chain returns on every path, so for the out-of-set operand type
NULL_NODE it silently selects the integer opcode, and the trailing throw of
"invalid LHS operand type for comparison" is unreachable for every type. -/
theorem determineOpCode_silently_selects_int_opcode :
    (∀ f s b i : Instruction, determineOpCode NodeType.NULL_NODE f s b i = .ok i) ∧
    (∀ (t : NodeType) (f s b i : Instruction), ∃ r, determineOpCode t f s b i = .ok r) := by
  refine ⟨fun f s b i => rfl, fun t f s b i => ?_⟩
  cases t <;> exact ⟨_, rfl⟩

/-- When every argument generates successfully, the reverse-order argument
loop of FuncCallNode::genCode produces the concatenation of the per-argument
code lists in reverse argument order (induction on the argument count). -/
lemma genCodeArgsRev_of_argCodes : ∀ (n : Nat) (args : ArgList), args.length ≤ n →
    ∀ codes, argCodesOf args = .ok codes →
    genCodeArgsRev args = .ok codes.reverse.flatten := by
  intro n
  induction n with
  | zero =>
    intro args h codes hc
    cases args with
    | nil =>
      simp [argCodesOf] at hc
      subst hc
      simp [genCodeArgsRev]
    | cons hd tl => simp [ArgList.length] at h
  | succ n ih =>
    intro args h codes hc
    cases args with
    | nil =>
      simp [argCodesOf] at hc
      subst hc
      simp [genCodeArgsRev]
    | cons hd tl =>
      cases hh : hd.genCode with
      | error e => simp [argCodesOf, hh, Except.bind, Bind.bind] at hc
      | ok hd_code =>
        cases ht : argCodesOf tl with
        | error e => simp [argCodesOf, hh, ht, Except.bind, Bind.bind] at hc
        | ok rest =>
          simp [argCodesOf, hh, ht, Except.bind, Bind.bind] at hc
          have hlen : tl.length ≤ n := by simp [ArgList.length] at h; omega
          have := ih tl hlen rest ht
          simp [genCodeArgsRev, this, hh, Except.bind, Bind.bind, ← hc]

/-- C5.  A function-call node emits each argument's code in reverse argument
order, then pushes the argument count and the opaque reference to the
resolved function (both at no source location), then emits CALL (first
conjunct); in particular the one-argument call LN(2.0) emits exactly
[push 2.0, push argcount 1, push LN-ref, CALL] (second conjunct). -/
theorem funcCall_emission_reverse_args :
    (∀ (loc : Int) (f : Function) (rt : NodeType) (args : ArgList)
       (codes : List (List CodeAndSourceLocation)),
       argCodesOf args = .ok codes →
       TreeNode.genCode (.funcCall loc f rt args)
         = .ok (codes.reverse.flatten
             ++ [.pushCount args.length (-1), .pushFunc f (-1),
                 .instr Instruction.CALL loc])) ∧
    TreeNode.genCode (.funcCall 0 ⟨"LN"⟩ NodeType.FLOAT_NODE
        (.cons (.floatConstant 3 2) .nil))
      = .ok [.pushFloat 2 3, .pushCount 1 (-1), .pushFunc ⟨"LN"⟩ (-1),
          .instr Instruction.CALL 0] := by
  constructor
  · intro loc f rt args codes hc
    have := genCodeArgsRev_of_argCodes args.length args le_rfl codes hc
    simp [TreeNode.genCode, this, Except.bind, Bind.bind]
  · rfl

/-- Witness for C5 at the two-argument call g(a1, a2) over string literals:
the second argument's code precedes the first argument's code. -/
theorem funcCall_emission_reverse_args_witness :
    TreeNode.genCode (.funcCall 9 ⟨"g"⟩ NodeType.STRING_NODE
        (.cons (.stringConstant 1 "a1") (.cons (.stringConstant 2 "a2") .nil)))
      = .ok (([[CodeAndSourceLocation.pushString "a1" 1],
               [CodeAndSourceLocation.pushString "a2" 2]] :
              List (List CodeAndSourceLocation)).reverse.flatten
          ++ [.pushCount (ArgList.length (.cons (.stringConstant 1 "a1")
                (.cons (.stringConstant 2 "a2") .nil))) (-1),
              .pushFunc ⟨"g"⟩ (-1), .instr Instruction.CALL 9]) :=
  funcCall_emission_reverse_args.1 9 ⟨"g"⟩ NodeType.STRING_NODE
    (.cons (.stringConstant 1 "a1") (.cons (.stringConstant 2 "a2") .nil))
    [[.pushString "a1" 1], [.pushString "a2" 2]] (by rfl)

/-- C6.  For a comparison binary node the emitted opcode is the
type-specialized variant chosen from the left operand's static type, as given
by the 24-entry table (first conjunct); in particular TRUE <> FALSE emits two
boolean-constant pushes followed by BNEQLB (second conjunct). -/
theorem comparison_opcode_from_lhs_type :
    (∀ (loc : Int) (op : Token) (lhs rhs : TreeNode)
       (rc lc : List CodeAndSourceLocation) (i : Instruction),
       rhs.genCode = .ok rc → lhs.genCode = .ok lc →
       compOpcodeTable op.getType lhs.getType = some i →
       TreeNode.genCode (.binOp loc op lhs rhs)
         = .ok (rc ++ lc ++ [.instr i loc])) ∧
    TreeNode.genCode (.binOp 5 NOT_EQUAL (.booleanConstant 0 true)
        (.booleanConstant 8 false))
      = .ok [.pushBool false 8, .pushBool true 0, .instr Instruction.BNEQLB 5] := by
  constructor
  · intro loc op lhs rhs rc lc i hr hl hi
    have hsel : binOpInstruction loc op lhs.getType = .ok i := by
      rcases op with ⟨tt, srep, ot⟩
      cases tt <;> cases hT : lhs.getType <;>
        simp_all [compOpcodeTable, binOpInstruction, determineOpCode, Token.getType]
    simp [TreeNode.genCode, hr, hl, hsel, Except.bind, Bind.bind]
  · rfl

/-- Witness for C6 at a greater-than comparison of two string literals:
the left operand's String type selects BGTS. -/
theorem comparison_opcode_from_lhs_type_witness :
    TreeNode.genCode (.binOp 4 GREATER_THAN (.stringConstant 0 "a")
        (.stringConstant 2 "b"))
      = .ok ([CodeAndSourceLocation.pushString "b" 2]
          ++ [CodeAndSourceLocation.pushString "a" 0]
          ++ [.instr Instruction.BGTS 4]) :=
  comparison_opcode_from_lhs_type.1 4 GREATER_THAN
    (.stringConstant 0 "a") (.stringConstant 2 "b")
    [.pushString "b" 2] [.pushString "a" 0] Instruction.BGTS
    (by rfl) (by rfl) (by rfl)

/-- C7.  BinOpNode construction is a hard validation: a null left operand, a
null right operand, and operands of differing static types each fail with the
corresponding invalid_argument message, and every successfully constructed
node holds exactly the two given operands, which share one type — nothing is
coerced or defaulted. -/
theorem binOp_construction_validation :
    (∀ (loc : Int) (op : Token) (rhs : Option TreeNode),
       mkBinOpNode loc op none rhs
         = .error "in BinOpNode::BinOpNode: operand must not be NULL!") ∧
    (∀ (loc : Int) (op : Token) (l : TreeNode),
       mkBinOpNode loc op (some l) none
         = .error "in BinOpNode::BinOpNode: right operand must not be NULL!") ∧
    (∀ (loc : Int) (op : Token) (l r : TreeNode), l.getType ≠ r.getType →
       mkBinOpNode loc op (some l) (some r)
         = .error "in BinOpNode::BinOpNode:  left and right operands must be of the same type!") ∧
    (∀ (loc : Int) (op : Token) (lhs rhs : Option TreeNode) (t : TreeNode),
       mkBinOpNode loc op lhs rhs = .ok t →
       ∃ l r, lhs = some l ∧ rhs = some r ∧ l.getType = r.getType ∧
         t = .binOp loc op l r) := by
  refine ⟨fun _ _ _ => rfl, fun _ _ _ => rfl, ?_, ?_⟩
  · intro loc op l r hne
    simp [mkBinOpNode, hne]
  · intro loc op lhs rhs t h
    cases lhs with
    | none => simp [mkBinOpNode] at h
    | some l =>
      cases rhs with
      | none => simp [mkBinOpNode] at h
      | some r =>
        by_cases he : l.getType = r.getType
        · simp [mkBinOpNode, he] at h
          exact ⟨l, r, rfl, rfl, he, h.symm⟩
        · simp [mkBinOpNode, he] at h

/-- Witness for C7: a Float-String mismatch is rejected with the
construction-time message, and a successful String-String construction holds
its operands unchanged. -/
theorem binOp_construction_validation_witness :
    mkBinOpNode 3 AMPERSAND (some (.floatConstant 0 1)) (some (.stringConstant 2 "z"))
      = .error "in BinOpNode::BinOpNode:  left and right operands must be of the same type!" ∧
    (∃ l r, (some (TreeNode.stringConstant 0 "a") : Option TreeNode) = some l ∧
       (some (TreeNode.stringConstant 1 "b") : Option TreeNode) = some r ∧
       l.getType = r.getType ∧
       TreeNode.binOp 4 AMPERSAND (.stringConstant 0 "a") (.stringConstant 1 "b")
         = .binOp 4 AMPERSAND l r) :=
  ⟨binOp_construction_validation.2.2.1 3 AMPERSAND (.floatConstant 0 1)
      (.stringConstant 2 "z") (by simp [TreeNode.getType]),
   binOp_construction_validation.2.2.2 4 AMPERSAND
      (some (.stringConstant 0 "a")) (some (.stringConstant 1 "b"))
      (.binOp 4 AMPERSAND (.stringConstant 0 "a") (.stringConstant 1 "b")) (by rfl)⟩

/-- The brace-mode identifier scan decodes a well-formed sequence of plain
and escaped components by dropping each escaping backslash and keeping the
escaped character, stopping at the terminator (end of input or an unescaped
delimiter) — induction over the component sequence. -/
lemma parseIdentifierLoop_items : ∀ (items : List BraceItem) (acc : String) (rest : List Char),
    wfItems items = true →
    (rest = [] ∨ ∃ c rs, rest = c :: rs ∧ isBraceDelim c = true) →
    parseIdentifierLoop (itemsChars items ++ rest) false acc
      = .ok (⟨acc.data ++ items.map decodeItem⟩, rest) := by
  intro items
  induction items with
  | nil =>
    intro acc rest _ hrest
    obtain ⟨accData⟩ := acc
    rcases hrest with rfl | ⟨c, rs, rfl, hc⟩
    · simp [parseIdentifierLoop, itemsChars]
    · simp [parseIdentifierLoop, itemsChars, hc]
  | cons it tl ih =>
    intro acc rest hwf hrest
    have hwf2 : wfItem it = true ∧ wfItems tl = true := by
      simpa [wfItems, Bool.and_eq_true] using hwf
    cases it with
    | plain c =>
      have hc : isBraceDelim c = false ∧ ¬ c = '\\' := by
        simpa [wfItem] using hwf2.1
      have step : parseIdentifierLoop (itemsChars (.plain c :: tl) ++ rest) false acc
          = parseIdentifierLoop (itemsChars tl ++ rest) false (acc.push c) := by
        simp [itemsChars, itemChars, parseIdentifierLoop, hc.1, hc.2]
      rw [step, ih (acc.push c) rest hwf2.2 hrest]
      simp [String.push, List.map_cons, decodeItem]
    | esc c =>
      have step : parseIdentifierLoop (itemsChars (.esc c :: tl) ++ rest) false acc
          = parseIdentifierLoop (itemsChars tl ++ rest) false (acc.push c) := by
        simp [itemsChars, itemChars, parseIdentifierLoop, isBraceDelim]
      rw [step, ih (acc.push c) rest hwf2.2 hrest]
      simp [String.push, List.map_cons, decodeItem]

/-- A backslash that arrives with end of input right behind it leaves the
scan in the escaped state, which is the error case of the loop. -/
lemma parseIdentifierLoop_trailing_backslash : ∀ (items : List BraceItem) (acc : String),
    wfItems items = true →
    parseIdentifierLoop (itemsChars items ++ ['\\']) false acc
      = .error "invalid column name at end of formula." := by
  intro items
  induction items with
  | nil =>
    intro acc _
    simp [parseIdentifierLoop, itemsChars, isBraceDelim]
  | cons it tl ih =>
    intro acc hwf
    have hwf2 : wfItem it = true ∧ wfItems tl = true := by
      simpa [wfItems, Bool.and_eq_true] using hwf
    cases it with
    | plain c =>
      have hc : isBraceDelim c = false ∧ ¬ c = '\\' := by
        simpa [wfItem] using hwf2.1
      have step : parseIdentifierLoop (itemsChars (.plain c :: tl) ++ ['\\']) false acc
          = parseIdentifierLoop (itemsChars tl ++ ['\\']) false (acc.push c) := by
        simp [itemsChars, itemChars, parseIdentifierLoop, hc.1, hc.2]
      rw [step, ih (acc.push c) hwf2.2]
    | esc c =>
      have step : parseIdentifierLoop (itemsChars (.esc c :: tl) ++ ['\\']) false acc
          = parseIdentifierLoop (itemsChars tl ++ ['\\']) false (acc.push c) := by
        simp [itemsChars, itemChars, parseIdentifierLoop, isBraceDelim]
      rw [step, ih (acc.push c) hwf2.2]

/-- C9.  The brace-mode identifier scan removes each escaping backslash and
keeps the escaped character literally, stopping at the first unescaped
delimiter or at end of input (first conjunct); a trailing backslash at end of
input is the error "invalid column name at end of formula." (second
conjunct); in particular the source text a\:b} decodes to the identifier
a:b with the colon not treated as a separator, stopping at the closing brace
(third conjunct). -/
theorem braceIdentifier_unescapes :
    (∀ (items : List BraceItem) (acc : String) (rest : List Char),
       wfItems items = true →
       (rest = [] ∨ ∃ c rs, rest = c :: rs ∧ isBraceDelim c = true) →
       parseIdentifierLoop (itemsChars items ++ rest) false acc
         = .ok (⟨acc.data ++ items.map decodeItem⟩, rest)) ∧
    (∀ (items : List BraceItem) (acc : String), wfItems items = true →
       parseIdentifierLoop (itemsChars items ++ ['\\']) false acc
         = .error "invalid column name at end of formula.") ∧
    parseIdentifier ['a', '\\', ':', 'b', '}'] = .identifier "a:b" ['}'] :=
  ⟨parseIdentifierLoop_items, parseIdentifierLoop_trailing_backslash, rfl⟩

/-- Witness for C9 at the component sequence of a\:b followed by the closing
brace. -/
theorem braceIdentifier_unescapes_witness :
    parseIdentifierLoop
        (itemsChars [BraceItem.plain 'a', BraceItem.esc ':', BraceItem.plain 'b'] ++ ['}'])
        false ""
      = .ok (⟨"".data ++ [BraceItem.plain 'a', BraceItem.esc ':',
          BraceItem.plain 'b'].map decodeItem⟩, ['}']) :=
  braceIdentifier_unescapes.1 [.plain 'a', .esc ':', .plain 'b'] "" ['}']
    (by decide) (Or.inr ⟨'}', [], rfl, by decide⟩)

/-- C8.  The numeric-literal text 1.5e2 matches the documented grammar in
full, yet Tokenizer::parseNumericConstant reaches its conversion step with
the accumulated number string "1.5e" — the exponent digits are never
appended, because the stray --ch_ before the exponent-digit loop parks the
cursor on the exponent letter — and with the cursor moved back to the second
character of the literal instead of past it, so the decoded value cannot be
the 64-bit parse 150.0 of the full matched substring and the next token
would restart inside the literal. -/
theorem numericConstant_drops_exponent_digits :
    matchesNumericGrammar ("1.5e2".toList) = true ∧
    parseNumericConstant [] ("1.5e2".toList)
      = .convert "1.5e" ['1'] ['.', '5', 'e', '2'] ∧
    "1.5e" ≠ "1.5e2" := by
  exact ⟨by decide, by rfl, by decide⟩

/-- C10.  A function-call node exposes no children through the child
accessors, whatever its argument vector: both getLeftChild and getRightChild
return null. -/
theorem funcCall_children_are_null :
    ∀ (loc : Int) (f : Function) (rt : NodeType) (args : ArgList),
      TreeNode.getLeftChild (.funcCall loc f rt args) = none ∧
      TreeNode.getRightChild (.funcCall loc f rt args) = none :=
  fun _ _ _ _ => ⟨rfl, rfl⟩

end Nyaa
